import Mathlib

/-!
Verification development for the XLS proc JIT runtime core: the channel/queue
model and the per-tick execution contract (predicated receive/send semantics,
state threading, host-hook injection with a caller-owned context value).

The repository provides the test suite (`proc_jit_test.cc`) exercising this
core; the queue and tick-driver implementations (`jit_channel_queue`,
`proc_jit`) are modelled here from the design document, faithfully to its
words, and the expected behaviors of the tests are proved against the model.
-/

namespace XlsProcJit

/-- Channel id, unique within a proc network. -/
abbrev ChanId := Nat

/-- Modelled from the spec: channel kind — `Streaming` (FIFO) or
`SingleValue` (single retained register). -/
inductive ChannelKind where
  | streaming
  | singleValue
deriving DecidableEq

/-- Modelled from the spec: channel direction (`ops=` in the IR text). -/
inductive ChannelOps where
  | receiveOnly
  | sendOnly
  | both
deriving DecidableEq

/-- Modelled from the spec: immutable channel descriptor — numeric id, kind,
direction, payload width in bits, flow-control mode (only `none` exercised,
carried as a unit of information-free data). -/
structure Channel where
  id : ChanId
  kind : ChannelKind
  ops : ChannelOps
  width : Nat
deriving DecidableEq

/-- Modelled from the spec: runtime error kinds (§7). -/
inductive RtError where
  | lengthMismatch
  | queueEmpty
  | typeMismatch
  | notFound
  | invalidNode
  | duplicateChannelId
deriving DecidableEq

/-- Modelled from the spec: mutable storage of one channel queue. A streaming
queue is an ordered FIFO of payloads; a single-value queue holds at most one
retained payload (`none` = never seeded). A payload of width `w` bits is
represented as a natural number below `2^w`. -/
inductive QueueState where
  | streaming (entries : List Nat)
  | singleValue (retained : Option Nat)
deriving DecidableEq

/-- Modelled from the spec (§4.1): `Send(bytes, length)` fails if `length`
does not match the channel's payload width; otherwise a streaming queue
appends to the tail and a single-value queue overwrites the retained payload.
The stored payload is the low `width` bits of the supplied buffer. -/
def queueSend (ch : Channel) (q : QueueState) (payload len : Nat) :
    Except RtError QueueState :=
  if len = ch.width then
    match q with
    | .streaming es => .ok (.streaming (es ++ [payload % 2 ^ ch.width]))
    | .singleValue _ => .ok (.singleValue (some (payload % 2 ^ ch.width)))
  else
    .error .lengthMismatch

/-- Modelled from the spec (§4.1): `Recv(out, length)` fails if `length`
mismatches the payload width, if a streaming queue is empty, or if a
single-value queue was never seeded. A streaming queue removes and returns
the head; a single-value queue returns the retained payload without removing
it. -/
def queueRecv (ch : Channel) (q : QueueState) (len : Nat) :
    Except RtError (Nat × QueueState) :=
  if len = ch.width then
    match q with
    | .streaming [] => .error .queueEmpty
    | .streaming (e :: es) => .ok (e, .streaming es)
    | .singleValue none => .error .queueEmpty
    | .singleValue (some v) => .ok (v, .singleValue (some v))
  else
    .error .lengthMismatch

/-- Modelled from the spec (§4.1): `Empty()` observability; does not mutate. -/
def queueIsEmpty : QueueState → Bool
  | .streaming es => es.isEmpty
  | .singleValue r => r.isNone

/-- Modelled from the spec: the initial queue for a channel kind. -/
def initQueue : ChannelKind → QueueState
  | .streaming => .streaming []
  | .singleValue => .singleValue none

/-- Modelled from the spec (§4.2): the queue manager owns one queue per
declared channel, indexed by channel id. -/
structure QueueManager where
  queues : List (Channel × QueueState)
deriving DecidableEq

/-- Modelled from the spec (§4.2): `Create` builds one queue per declared
channel and fails if two channels share an id. -/
def QueueManager.create (chans : List Channel) : Except RtError QueueManager :=
  if (chans.map Channel.id).Nodup then
    .ok ⟨chans.map (fun c => (c, initQueue c.kind))⟩
  else
    .error .duplicateChannelId

/-- Modelled from the spec (§4.2): lookup by channel id, or a not-found
failure. -/
def QueueManager.getQueueById (m : QueueManager) (id : ChanId) :
    Except RtError (Channel × QueueState) :=
  match m.queues.find? (fun p => p.1.id = id) with
  | some p => .ok p
  | none => .error .notFound

/-- Replace the stored queue of channel `id` (in-place mutation of the C++
queue object, made explicit). -/
def QueueManager.setQueue (m : QueueManager) (id : ChanId) (q : QueueState) :
    QueueManager :=
  ⟨m.queues.map (fun p => if p.1.id = id then (p.1, q) else p)⟩

/-- IR value types: `token`, `bits[w]`, and tuples (e.g. the `()` state of a
stateless proc, or the `(token, bits[32])` result of a receive node). -/
inductive XType where
  | token
  | bits (w : Nat)
  | tuple (ts : List XType)

/-- IR values (`Value` in the C++ code): a control token, a `bits[w]` value
held as a natural number, or a tuple of values (`Value::Tuple`). -/
inductive XValue where
  | token
  | bits (w v : Nat)
  | tuple (vs : List XValue)

mutual

/-- Structural equality of IR types (arity and element types). -/
def XType.beq : XType → XType → Bool
  | .token, .token => true
  | .bits w, .bits w' => w == w'
  | .tuple ts, .tuple ts' => XType.beqList ts ts'
  | _, _ => false

/-- Elementwise equality of IR type lists. -/
def XType.beqList : List XType → List XType → Bool
  | [], [] => true
  | t :: ts, t' :: ts' => XType.beq t t' && XType.beqList ts ts'
  | _, _ => false

end

mutual

/-- The IR type of an IR value. -/
def typeOf : XValue → XType
  | .token => .token
  | .bits w _ => .bits w
  | .tuple vs => .tuple (typesOf vs)

/-- The IR types of a list of IR values. -/
def typesOf : List XValue → List XType
  | [] => []
  | v :: vs => typeOf v :: typesOf vs

end

/-- Modelled from the spec (§4.3): the pair of caller-supplied host hooks,
with a caller-owned context value of type `U` threaded through every
invocation. The receive hook is given the channel, its queue, the buffer
length and the context, and yields the fetched payload with the updated queue
and context; the send hook is additionally given the computed payload. -/
structure HostHooks (U : Type) where
  recvHook : Channel → QueueState → Nat → U → Except RtError (Nat × QueueState × U)
  sendHook : Channel → QueueState → Nat → Nat → U → Except RtError (QueueState × U)

/-- Dataflow-graph node operations appearing in the compiled procs under
test: literals, (optionally predicated) receive and send, tuple projection,
and `umul`/`add` arithmetic at a given bit width. Operands are indices of
earlier nodes in evaluation order. -/
inductive Instr where
  | literal (w v : Nat)
  | tupleIndex (src i : Nat)
  | umul (w a b : Nat)
  | add (w a b : Nat)
  | receive (tok : Nat) (chanId : ChanId) (pred : Option Nat)
  | send (tok operand : Nat) (chanId : ChanId) (pred : Option Nat)

/-- Evaluate a predicate operand: a `bits` value fires iff it is nonzero. -/
def predFires : XValue → Except RtError Bool
  | .bits _ v => .ok (v != 0)
  | _ => .error .invalidNode

/-- Modelled from the spec (§4.3): execute one graph node. State is threaded
explicitly: the queue manager, the caller's context value, and the
environment of already-computed node values. The first component reports
failure; the queue manager and context components make the in-place C++
mutations explicit.

Receive: an unconditional receive (or one whose predicate fires) invokes the
receive hook on the bound queue and wraps the payload as
`(token, bits[width])`; a false predicate touches neither the hook nor the
queue and synthesizes an all-zero payload at the channel's declared width.

Send: an unconditional send (or one whose predicate fires) invokes the send
hook with the computed operand payload; a false predicate suppresses the
operation entirely, producing only the control token. -/
def execInstr {U : Type} (hooks : HostHooks U) (mgr : QueueManager) (u : U)
    (env : List XValue) : Instr → Except RtError (List XValue) × QueueManager × U
  | .literal w v => (.ok (env ++ [.bits w (v % 2 ^ w)]), mgr, u)
  | .tupleIndex src i =>
    match env.get? src with
    | some (.tuple vs) =>
      match vs.get? i with
      | some v => (.ok (env ++ [v]), mgr, u)
      | none => (.error .invalidNode, mgr, u)
    | _ => (.error .invalidNode, mgr, u)
  | .umul w a b =>
    match env.get? a, env.get? b with
    | some (.bits _ va), some (.bits _ vb) =>
      (.ok (env ++ [.bits w (va * vb % 2 ^ w)]), mgr, u)
    | _, _ => (.error .invalidNode, mgr, u)
  | .add w a b =>
    match env.get? a, env.get? b with
    | some (.bits _ va), some (.bits _ vb) =>
      (.ok (env ++ [.bits w ((va + vb) % 2 ^ w)]), mgr, u)
    | _, _ => (.error .invalidNode, mgr, u)
  | .receive _tok chanId pred =>
    match mgr.getQueueById chanId with
    | .error e => (.error e, mgr, u)
    | .ok (ch, q) =>
      let fire : Except RtError Bool :=
        match pred with
        | none => .ok true
        | some p =>
          match env.get? p with
          | some pv => predFires pv
          | none => .error .invalidNode
      match fire with
      | .error e => (.error e, mgr, u)
      | .ok false =>
        (.ok (env ++ [.tuple [.token, .bits ch.width 0]]), mgr, u)
      | .ok true =>
        match hooks.recvHook ch q ch.width u with
        | .error e => (.error e, mgr, u)
        | .ok (v, q', u') =>
          (.ok (env ++ [.tuple [.token, .bits ch.width v]]),
           mgr.setQueue chanId q', u')
  | .send _tok operand chanId pred =>
    let fire : Except RtError Bool :=
      match pred with
      | none => .ok true
      | some p =>
        match env.get? p with
        | some pv => predFires pv
        | none => .error .invalidNode
    match fire with
    | .error e => (.error e, mgr, u)
    | .ok false => (.ok (env ++ [.token]), mgr, u)
    | .ok true =>
      match env.get? operand with
      | some (.bits w v) =>
        match mgr.getQueueById chanId with
        | .error e => (.error e, mgr, u)
        | .ok (ch, q) =>
          match hooks.sendHook ch q v w u with
          | .error e => (.error e, mgr, u)
          | .ok (q', u') => (.ok (env ++ [.token]), mgr.setQueue chanId q', u')
      | _ => (.error .invalidNode, mgr, u)

/-- Modelled from the spec (§4.3, §5): one pass over the compiled graph's
nodes in evaluation order; the first failure aborts the tick, keeping the
mutations already performed. -/
def execInstrs {U : Type} (hooks : HostHooks U) :
    QueueManager → U → List XValue → List Instr →
    Except RtError (List XValue) × QueueManager × U
  | mgr, u, env, [] => (.ok env, mgr, u)
  | mgr, u, env, instr :: rest =>
    match execInstr hooks mgr u env instr with
    | (.ok env', mgr', u') => execInstrs hooks mgr' u' env' rest
    | (.error e, mgr', u') => (.error e, mgr', u')

/-- A compiled proc: the declared state signature, the graph body in
evaluation order (node 0 is the implicit token parameter and nodes
1..arity are the state parameters), and the node indices whose values form
the returned next state. -/
structure Proc where
  stateSig : List XType
  body : List Instr
  nexts : List Nat

/-- Modelled from the spec (§4.4): `Run(state, context)` validates the
state's arity and element types against the proc's declared state signature,
failing with a type-mismatch error before touching any queue; otherwise it
executes the graph body once with the bound hooks and context and returns
the next state. -/
def run {U : Type} (p : Proc) (hooks : HostHooks U) (mgr : QueueManager)
    (u : U) (state : List XValue) :
    Except RtError (List XValue) × QueueManager × U :=
  if XType.beqList (typesOf state) p.stateSig then
    match execInstrs hooks mgr u (.token :: state) p.body with
    | (.ok env, mgr', u') =>
      match p.nexts.mapM env.get? with
      | some ns => (.ok ns, mgr', u')
      | none => (.error .invalidNode, mgr', u')
    | (.error e, mgr', u') => (.error e, mgr', u')
  else
    (.error .typeMismatch, mgr, u)

/-! Host hooks and helpers from `proc_jit_test.cc`. -/

/-- `CanCompileProcs_recv`: the plain receive hook — performs `Recv` on the
bound queue and leaves the context value untouched. -/
def CanCompileProcs_recv {U : Type} (ch : Channel) (q : QueueState) (len : Nat)
    (u : U) : Except RtError (Nat × QueueState × U) :=
  (queueRecv ch q len).map (fun r => (r.1, r.2, u))

/-- `CanCompileProcs_send`: the plain send hook — performs `Send` of the
computed payload onto the bound queue, context untouched. -/
def CanCompileProcs_send {U : Type} (ch : Channel) (q : QueueState)
    (payload len : Nat) (u : U) : Except RtError (QueueState × U) :=
  (queueSend ch q payload len).map (fun q' => (q', u))

/-- The default hook pair used by most tests. -/
def defaultHooks (U : Type) : HostHooks U :=
  ⟨CanCompileProcs_recv, CanCompileProcs_send⟩

/-- `GetsUserData_recv`: doubles the 64-bit counter reachable through the
context, then performs `Recv`. -/
def GetsUserData_recv (ch : Channel) (q : QueueState) (len : Nat) (u : Nat) :
    Except RtError (Nat × QueueState × Nat) :=
  (queueRecv ch q len).map (fun r => (r.1, r.2, u * 2 % 2 ^ 64))

/-- `GetsUserData_send`: triples the 64-bit counter reachable through the
context, then performs `Send`. -/
def GetsUserData_send (ch : Channel) (q : QueueState) (payload len : Nat)
    (u : Nat) : Except RtError (QueueState × Nat) :=
  (queueSend ch q payload len).map (fun q' => (q', u * 3 % 2 ^ 64))

/-- The hook pair of the `GetsUserData` test, over a `Nat` counter context. -/
def getsUserDataHooks : HostHooks Nat :=
  ⟨GetsUserData_recv, GetsUserData_send⟩

/-- `EnqueueData`: test helper sending one 32-bit value onto a queue through
the manager, ignoring the status. -/
def enqueueData (m : QueueManager) (id : ChanId) (v : Nat) : QueueManager :=
  match m.getQueueById id with
  | .ok (ch, q) =>
    match queueSend ch q v ch.width with
    | .ok q' => m.setQueue id q'
    | .error _ => m
  | .error _ => m

/-- `DequeueData`: test helper receiving one 32-bit value from a queue,
returning the value (0 on failure) and the updated manager. -/
def dequeueData (m : QueueManager) (id : ChanId) : Nat × QueueManager :=
  match m.getQueueById id with
  | .ok (ch, q) =>
    match queueRecv ch q ch.width with
    | .ok (v, q') => (v, m.setQueue id q')
    | .error _ => (0, m)
  | .error _ => (0, m)

/-! The channel networks and procs of the four tests. -/

/-- `chan c_i(bits[32], id=0, kind=streaming, ops=receive_only)`. -/
def c_i : Channel := ⟨0, .streaming, .receiveOnly, 32⟩

/-- `chan c_o(bits[32], id=1, kind=streaming, ops=send_only)`. -/
def c_o : Channel := ⟨1, .streaming, .sendOnly, 32⟩

/-- The two-streaming-channel network shared by the first four tests. -/
def twoChanNetwork : List Channel := [c_i, c_o]

/-- The proc of `CanCompileProcs` and `GetsUserData`: node 0 is `my_token`,
node 1 the `()` state, then `literal 3`, an unconditional receive on channel
0, two projections, `umul`, and an unconditional send on channel 1; the next
state is the state parameter unchanged. -/
def canCompileProcsProc : Proc where
  stateSig := [.tuple []]
  body :=
    [.literal 32 3,
     .receive 0 0 none,
     .tupleIndex 3 0,
     .tupleIndex 3 1,
     .umul 32 2 5,
     .send 4 6 1 none]
  nexts := [1]

/-- The proc of `RecvIf`: state is `bits[1]` (node 1); the receive on channel
0 is predicated on the state, and its payload is sent unconditionally on
channel 1. -/
def recvIfProc : Proc where
  stateSig := [.bits 1]
  body :=
    [.receive 0 0 (some 1),
     .tupleIndex 2 0,
     .tupleIndex 2 1,
     .send 3 4 1 none]
  nexts := [1]

/-- The proc of `ConditionalSend`: state is `bits[1]` (node 1); the receive
on channel 0 is unconditional, and the send on channel 1 is predicated on
the state. -/
def conditionalSendProc : Proc where
  stateSig := [.bits 1]
  body :=
    [.receive 0 0 none,
     .tupleIndex 2 0,
     .tupleIndex 2 1,
     .send 3 4 1 (some 1)]
  nexts := [1]

/-- `chan c_sv(bits[32], id=0, kind=single_value, ops=receive_only)`. -/
def c_sv : Channel := ⟨0, .singleValue, .receiveOnly, 32⟩

/-- `chan c_i(bits[32], id=1, kind=streaming, ops=receive_only)` of the
`SingleValueChannel` test. -/
def c_svi : Channel := ⟨1, .streaming, .receiveOnly, 32⟩

/-- `chan c_o(bits[32], id=2, kind=streaming, ops=send_only)` of the
`SingleValueChannel` test. -/
def c_svo : Channel := ⟨2, .streaming, .sendOnly, 32⟩

/-- The three-channel network of `SingleValueChannel`: single-value input
id 0, streaming input id 1, streaming output id 2. -/
def singleValueNetwork : List Channel := [c_sv, c_svi, c_svo]

/-- The proc of `SingleValueChannel`: an unconditional receive on the
single-value channel 0 and on the streaming channel 1, their `add`, sent on
channel 2. -/
def singleValueProc : Proc where
  stateSig := [.tuple []]
  body :=
    [.receive 0 0 none,
     .tupleIndex 2 0,
     .tupleIndex 2 1,
     .receive 3 1 none,
     .tupleIndex 5 0,
     .tupleIndex 5 1,
     .add 32 4 7,
     .send 6 8 2 none]
  nexts := [1]

/-- The freshly created manager for `twoChanNetwork`. -/
def emptyTwoChanMgr : QueueManager :=
  ⟨[(c_i, .streaming []), (c_o, .streaming [])]⟩

/-- The freshly created manager for `singleValueNetwork`. -/
def emptySvMgr : QueueManager :=
  ⟨[(c_sv, .singleValue none), (c_svi, .streaming []), (c_svo, .streaming [])]⟩

/-- Send a whole sequence of payloads onto one queue, each at the channel's
declared width, in order. -/
def sendAll (ch : Channel) (q : QueueState) : List Nat → Except RtError QueueState
  | [] => .ok q
  | v :: rest => queueSend ch q v ch.width >>= fun q' => sendAll ch q' rest

/-- Receive `n` payloads from one queue at the channel's declared width,
returning them in the order received. -/
def recvAll (ch : Channel) (q : QueueState) : Nat → Except RtError (List Nat × QueueState)
  | 0 => .ok ([], q)
  | n + 1 =>
    queueRecv ch q ch.width >>= fun r =>
      (recvAll ch r.2 n).map (fun s => (r.1 :: s.1, s.2))

/-- Thread a sequence of `Run` calls (a call history), keeping the final
queue-manager and context state. -/
def runSeqState {U : Type} (p : Proc) (hooks : HostHooks U) :
    QueueManager → U → List (List XValue) → QueueManager × U
  | mgr, u, [] => (mgr, u)
  | mgr, u, st :: rest =>
    let r := run p hooks mgr u st
    runSeqState p hooks r.2.1 r.2.2 rest

/-! Claim theorems. -/

/-- C1: a predicated receive whose predicate evaluates false invokes no hook
(the conclusion holds for every hook pair) and leaves the queue manager and
context untouched, synthesizing an all-zero payload at the channel's
declared width; concretely (`RecvIf`), with `0xBEEF` enqueued once, a
false-predicate tick forwards `0` and leaves the entry queued, and the next
true-predicate tick forwards the original `0xBEEF`. -/
theorem predicated_receive_false_zero_no_consumption :
    (∀ (U : Type) (hooks : HostHooks U) (mgr : QueueManager) (u : U)
       (env : List XValue) (tok chanId p : Nat) (ch : Channel) (q : QueueState)
       (pv : XValue),
       mgr.getQueueById chanId = .ok (ch, q) →
       env[p]? = some pv →
       predFires pv = .ok false →
       execInstr hooks mgr u env (.receive tok chanId (some p)) =
         (.ok (env ++ [.tuple [.token, .bits ch.width 0]]), mgr, u)) ∧
    enqueueData emptyTwoChanMgr 0 0xbeef =
      ⟨[(c_i, .streaming [0xbeef]), (c_o, .streaming [])]⟩ ∧
    run recvIfProc (defaultHooks Unit)
        ⟨[(c_i, .streaming [0xbeef]), (c_o, .streaming [])]⟩ () [.bits 1 0] =
      (.ok [.bits 1 0],
       ⟨[(c_i, .streaming [0xbeef]), (c_o, .streaming [0])]⟩, ()) ∧
    run recvIfProc (defaultHooks Unit)
        ⟨[(c_i, .streaming [0xbeef]), (c_o, .streaming [])]⟩ () [.bits 1 1] =
      (.ok [.bits 1 1],
       ⟨[(c_i, .streaming []), (c_o, .streaming [0xbeef])]⟩, ()) := by
  refine ⟨?_, rfl, rfl, rfl⟩
  intro U hooks mgr u env tok chanId p ch q pv hq hp hpf
  simp [execInstr, hq, hp, hpf]

/-- Witness for C1: the general suppression statement applied to the
`RecvIf` receive node over the fresh two-channel manager, with predicate
value `bits[1]:0`. -/
theorem predicated_receive_false_zero_no_consumption_witness :
    execInstr (defaultHooks Unit) emptyTwoChanMgr () [.token, .bits 1 0]
        (.receive 0 0 (some 1)) =
      (.ok [.token, .bits 1 0, .tuple [.token, .bits 32 0]],
       emptyTwoChanMgr, ()) :=
  predicated_receive_false_zero_no_consumption.1 Unit (defaultHooks Unit)
    emptyTwoChanMgr () [.token, .bits 1 0] 0 0 1 c_i (.streaming [])
    (.bits 1 0) rfl rfl rfl

/-- C2: a predicated send whose predicate evaluates false is fully
suppressed — no hook call (the conclusion holds for every hook pair), no
queue mutation, no placeholder write, only the control token is produced;
concretely (`ConditionalSend`), after the false-predicate tick the output
queue is still empty while the true-predicate tick deposits exactly the
value received in that tick. -/
theorem predicated_send_false_suppressed :
    (∀ (U : Type) (hooks : HostHooks U) (mgr : QueueManager) (u : U)
       (env : List XValue) (tok opnd chanId p : Nat) (pv : XValue),
       env[p]? = some pv →
       predFires pv = .ok false →
       execInstr hooks mgr u env (.send tok opnd chanId (some p)) =
         (.ok (env ++ [.token]), mgr, u)) ∧
    enqueueData (enqueueData emptyTwoChanMgr 0 0xbeef) 0 0xbef0 =
      ⟨[(c_i, .streaming [0xbeef, 0xbef0]), (c_o, .streaming [])]⟩ ∧
    run conditionalSendProc (defaultHooks Unit)
        ⟨[(c_i, .streaming [0xbeef, 0xbef0]), (c_o, .streaming [])]⟩ ()
        [.bits 1 0] =
      (.ok [.bits 1 0],
       ⟨[(c_i, .streaming [0xbef0]), (c_o, .streaming [])]⟩, ()) ∧
    QueueManager.getQueueById
        ⟨[(c_i, .streaming [0xbef0]), (c_o, .streaming [])]⟩ 1 =
      .ok (c_o, .streaming []) ∧
    queueIsEmpty (.streaming []) = true ∧
    run conditionalSendProc (defaultHooks Unit)
        ⟨[(c_i, .streaming [0xbef0]), (c_o, .streaming [])]⟩ () [.bits 1 1] =
      (.ok [.bits 1 1],
       ⟨[(c_i, .streaming []), (c_o, .streaming [0xbef0])]⟩, ()) := by
  refine ⟨?_, rfl, rfl, rfl, rfl, rfl⟩
  intro U hooks mgr u env tok opnd chanId p pv hp hpf
  simp [execInstr, hp, hpf]

/-- Witness for C2: the general suppression statement applied to the
`ConditionalSend` send node over the fresh two-channel manager, with
predicate value `bits[1]:0`. -/
theorem predicated_send_false_suppressed_witness :
    execInstr (defaultHooks Unit) emptyTwoChanMgr () [.token, .bits 1 0]
        (.send 0 0 1 (some 1)) =
      (.ok [.token, .bits 1 0, .token], emptyTwoChanMgr, ()) :=
  predicated_send_false_suppressed.1 Unit (defaultHooks Unit) emptyTwoChanMgr
    () [.token, .bits 1 0] 0 0 1 1 (.bits 1 0) rfl rfl

/-- Reducing a bind of a successful `Except` computation. -/
theorem except_bind_ok {e a b : Type} (x : a) (f : a → Except e b) :
    (Except.ok x >>= f : Except e b) = f x := rfl

/-- Reducing a map of a successful `Except` computation. -/
theorem except_map_ok {e a b : Type} (x : a) (f : a → b) :
    Except.map f (Except.ok x : Except e a) = Except.ok (f x) := rfl

/-- Helper: any number of reads of a seeded single-value queue yields the
retained payload each time, leaving the queue unchanged. -/
theorem recvAll_singleValue (ch : Channel) (v : Nat) :
    ∀ n : Nat, recvAll ch (.singleValue (some v)) n =
      .ok (List.replicate n v, .singleValue (some v)) := by
  intro n
  induction n with
  | zero => simp [recvAll]
  | succ n ih =>
    simp [recvAll, queueRecv, ih, List.replicate_succ, except_bind_ok,
      except_map_ok]

/-- C3: `Recv` on a single-value queue returns the retained payload without
removing it — so any number of repeated reads return the same value — and
`Send` overwrites the retained payload without growing the queue;
concretely (`SingleValueChannel`), seeded with `7` and given streaming
inputs `42`, `123` the two ticks output `49` and `130`, and after reseeding
to `10` with two more streaming inputs `42`, `123` the next two ticks output
`52` and `133`. -/
theorem single_value_register_persistence :
    (∀ (ch : Channel) (v : Nat),
       queueRecv ch (.singleValue (some v)) ch.width =
         .ok (v, .singleValue (some v))) ∧
    (∀ (ch : Channel) (v n : Nat),
       recvAll ch (.singleValue (some v)) n =
         .ok (List.replicate n v, .singleValue (some v))) ∧
    (∀ (ch : Channel) (r : Option Nat) (p : Nat),
       queueSend ch (.singleValue r) p ch.width =
         .ok (.singleValue (some (p % 2 ^ ch.width)))) ∧
    enqueueData (enqueueData (enqueueData emptySvMgr 0 7) 1 42) 1 123 =
      ⟨[(c_sv, .singleValue (some 7)), (c_svi, .streaming [42, 123]),
        (c_svo, .streaming [])]⟩ ∧
    run singleValueProc (defaultHooks Unit)
        ⟨[(c_sv, .singleValue (some 7)), (c_svi, .streaming [42, 123]),
          (c_svo, .streaming [])]⟩ () [.tuple []] =
      (.ok [.tuple []],
       ⟨[(c_sv, .singleValue (some 7)), (c_svi, .streaming [123]),
         (c_svo, .streaming [49])]⟩, ()) ∧
    run singleValueProc (defaultHooks Unit)
        ⟨[(c_sv, .singleValue (some 7)), (c_svi, .streaming [123]),
          (c_svo, .streaming [49])]⟩ () [.tuple []] =
      (.ok [.tuple []],
       ⟨[(c_sv, .singleValue (some 7)), (c_svi, .streaming []),
         (c_svo, .streaming [49, 130])]⟩, ()) ∧
    dequeueData
        ⟨[(c_sv, .singleValue (some 7)), (c_svi, .streaming []),
          (c_svo, .streaming [49, 130])]⟩ 2 =
      (49, ⟨[(c_sv, .singleValue (some 7)), (c_svi, .streaming []),
             (c_svo, .streaming [130])]⟩) ∧
    dequeueData
        ⟨[(c_sv, .singleValue (some 7)), (c_svi, .streaming []),
          (c_svo, .streaming [130])]⟩ 2 =
      (130, ⟨[(c_sv, .singleValue (some 7)), (c_svi, .streaming []),
              (c_svo, .streaming [])]⟩) ∧
    enqueueData (enqueueData (enqueueData
        ⟨[(c_sv, .singleValue (some 7)), (c_svi, .streaming []),
          (c_svo, .streaming [])]⟩ 0 10) 1 42) 1 123 =
      ⟨[(c_sv, .singleValue (some 10)), (c_svi, .streaming [42, 123]),
        (c_svo, .streaming [])]⟩ ∧
    run singleValueProc (defaultHooks Unit)
        ⟨[(c_sv, .singleValue (some 10)), (c_svi, .streaming [42, 123]),
          (c_svo, .streaming [])]⟩ () [.tuple []] =
      (.ok [.tuple []],
       ⟨[(c_sv, .singleValue (some 10)), (c_svi, .streaming [123]),
         (c_svo, .streaming [52])]⟩, ()) ∧
    run singleValueProc (defaultHooks Unit)
        ⟨[(c_sv, .singleValue (some 10)), (c_svi, .streaming [123]),
          (c_svo, .streaming [52])]⟩ () [.tuple []] =
      (.ok [.tuple []],
       ⟨[(c_sv, .singleValue (some 10)), (c_svi, .streaming []),
         (c_svo, .streaming [52, 133])]⟩, ()) := by
  refine ⟨?_, ?_, ?_, rfl, rfl, rfl, rfl, rfl, rfl, rfl, rfl⟩
  · intro ch v
    simp [queueRecv]
  · intro ch v n
    exact recvAll_singleValue ch v n
  · intro ch r p
    cases r <;> simp [queueSend]

/-- Helper: symbolic evaluation of one `CanCompileProcs` tick — the head of
the input queue is consumed, tripled at 32 bits, and appended to the output
queue (with the send-side buffer truncation explicit). -/
theorem run_canCompileProcs_step (v : Nat) (es es' : List Nat) :
    run canCompileProcsProc (defaultHooks Unit)
        ⟨[(c_i, .streaming (v :: es)), (c_o, .streaming es')]⟩ () [.tuple []] =
      (.ok [.tuple []],
       ⟨[(c_i, .streaming es),
         (c_o, .streaming (es' ++ [3 * v % 2 ^ 32 % 2 ^ 32]))]⟩, ()) := rfl

/-- C4: for the proc that unconditionally receives `v`, multiplies by the
literal `3`, and unconditionally sends the product, one `Run` deposits
exactly `3*v` (at 32 bits) on the output queue, for every queued `v`;
concretely (`CanCompileProcs`), enqueueing `7` and running yields `21`, and
after dequeuing and enqueueing a fresh `7` the second run yields `21`
again. -/
theorem unconditional_passthrough_times_const :
    (∀ (v : Nat) (es es' : List Nat),
       run canCompileProcsProc (defaultHooks Unit)
           ⟨[(c_i, .streaming (v :: es)), (c_o, .streaming es')]⟩ ()
           [.tuple []] =
         (.ok [.tuple []],
          ⟨[(c_i, .streaming es),
            (c_o, .streaming (es' ++ [3 * v % 2 ^ 32]))]⟩, ())) ∧
    QueueManager.create twoChanNetwork = .ok emptyTwoChanMgr ∧
    enqueueData emptyTwoChanMgr 0 7 =
      ⟨[(c_i, .streaming [7]), (c_o, .streaming [])]⟩ ∧
    run canCompileProcsProc (defaultHooks Unit)
        ⟨[(c_i, .streaming [7]), (c_o, .streaming [])]⟩ () [.tuple []] =
      (.ok [.tuple []],
       ⟨[(c_i, .streaming []), (c_o, .streaming [21])]⟩, ()) ∧
    dequeueData ⟨[(c_i, .streaming []), (c_o, .streaming [21])]⟩ 1 =
      (21, emptyTwoChanMgr) ∧
    enqueueData emptyTwoChanMgr 0 7 =
      ⟨[(c_i, .streaming [7]), (c_o, .streaming [])]⟩ := by
  refine ⟨?_, ?_, rfl, rfl, rfl, rfl⟩
  · intro v es es'
    rw [run_canCompileProcs_step v es es', Nat.mod_mod_of_dvd _ dvd_rfl]
  · simp [QueueManager.create, twoChanNetwork, emptyTwoChanMgr, initQueue,
      c_i, c_o]

/-- Helper: sending a sequence of payloads appends their truncations to the
tail of a streaming queue, in order. -/
theorem sendAll_streaming (ch : Channel) :
    ∀ (vs : List Nat) (es : List Nat),
      sendAll ch (.streaming es) vs =
        .ok (.streaming (es ++ vs.map (fun v => v % 2 ^ ch.width))) := by
  intro vs
  induction vs with
  | nil => intro es; simp [sendAll]
  | cons v rest ih =>
    intro es
    simp [sendAll, queueSend, except_bind_ok, ih]

/-- Helper: receiving a streaming queue's whole contents returns them in
queue order, head first. -/
theorem recvAll_streaming (ch : Channel) :
    ∀ es : List Nat,
      recvAll ch (.streaming es) es.length = .ok (es, .streaming []) := by
  intro es
  induction es with
  | nil => simp [recvAll]
  | cons e rest ih =>
    simp [recvAll, queueRecv, ih, except_bind_ok, except_map_ok]

/-- C5: a streaming channel queue is a FIFO — `Send` appends the payload at
the tail, `Recv` removes and returns the head, and any sequence of sends is
received back in exactly the order sent. -/
theorem streaming_queue_is_fifo :
    (∀ (ch : Channel) (es : List Nat) (p : Nat),
       queueSend ch (.streaming es) p ch.width =
         .ok (.streaming (es ++ [p % 2 ^ ch.width]))) ∧
    (∀ (ch : Channel) (e : Nat) (es : List Nat),
       queueRecv ch (.streaming (e :: es)) ch.width =
         .ok (e, .streaming es)) ∧
    (∀ (ch : Channel) (vs : List Nat),
       (sendAll ch (.streaming []) vs) >>= (fun q => recvAll ch q vs.length) =
         .ok (vs.map (fun v => v % 2 ^ ch.width), .streaming [])) := by
  refine ⟨?_, ?_, ?_⟩
  · intro ch es p
    simp [queueSend]
  · intro ch e es
    simp [queueRecv]
  · intro ch vs
    rw [sendAll_streaming ch vs [], except_bind_ok]
    have h := recvAll_streaming ch (vs.map (fun v => v % 2 ^ ch.width))
    simpa using h

/-- Helper: symbolic evaluation of one `GetsUserData` tick — the receive
hook doubles the counter before the payload is consumed by the dependent
multiply, the send hook triples it after the product is computed, and both
see the caller's context value. -/
theorem run_getsUserData_step (u v : Nat) (es es' : List Nat) :
    run canCompileProcsProc getsUserDataHooks
        ⟨[(c_i, .streaming (v :: es)), (c_o, .streaming es')]⟩ u [.tuple []] =
      (.ok [.tuple []],
       ⟨[(c_i, .streaming es),
         (c_o, .streaming (es' ++ [3 * v % 2 ^ 32 % 2 ^ 32]))]⟩,
       u * 2 % 2 ^ 64 * 3 % 2 ^ 64) := rfl

/-- C6: in a tick with exactly one receive and one send, the receive hook
and the send hook each fire exactly once, in evaluation order, with the
caller's context value threaded through both: for every starting counter
`u` the tick ends at `u*2*3` (mod `2^64`); concretely (`GetsUserData`),
counter `7` ends at `42` with output `21`, and a re-run from a freshly
reset counter `7` reproduces `42` and `21`. -/
theorem hook_context_composition :
    (∀ (u v : Nat) (es es' : List Nat),
       run canCompileProcsProc getsUserDataHooks
           ⟨[(c_i, .streaming (v :: es)), (c_o, .streaming es')]⟩ u
           [.tuple []] =
         (.ok [.tuple []],
          ⟨[(c_i, .streaming es),
            (c_o, .streaming (es' ++ [3 * v % 2 ^ 32]))]⟩,
          u * 2 % 2 ^ 64 * 3 % 2 ^ 64)) ∧
    enqueueData emptyTwoChanMgr 0 7 =
      ⟨[(c_i, .streaming [7]), (c_o, .streaming [])]⟩ ∧
    run canCompileProcsProc getsUserDataHooks
        ⟨[(c_i, .streaming [7]), (c_o, .streaming [])]⟩ 7 [.tuple []] =
      (.ok [.tuple []],
       ⟨[(c_i, .streaming []), (c_o, .streaming [21])]⟩, 42) ∧
    dequeueData ⟨[(c_i, .streaming []), (c_o, .streaming [21])]⟩ 1 =
      (21, emptyTwoChanMgr) ∧
    enqueueData emptyTwoChanMgr 0 7 =
      ⟨[(c_i, .streaming [7]), (c_o, .streaming [])]⟩ := by
  refine ⟨?_, rfl, rfl, rfl, rfl⟩
  intro u v es es'
  rw [run_getsUserData_step u v es es', Nat.mod_mod_of_dvd _ dvd_rfl]

/-- C7: `Run` is deterministic and re-entrant — for any two call histories
leading to identical queue contents and identical context state, the next
tick from either history produces identical results (returned next state,
queue contents, and context side effects), independent of how many calls
preceded it. -/
theorem run_deterministic_reentrant :
    ∀ (U : Type) (p : Proc) (hooks : HostHooks U) (mgr0 : QueueManager)
      (u0 : U) (h1 h2 : List (List XValue)) (st : List XValue),
      runSeqState p hooks mgr0 u0 h1 = runSeqState p hooks mgr0 u0 h2 →
      run p hooks (runSeqState p hooks mgr0 u0 h1).1
          (runSeqState p hooks mgr0 u0 h1).2 st =
        run p hooks (runSeqState p hooks mgr0 u0 h2).1
          (runSeqState p hooks mgr0 u0 h2).2 st := by
  intro U p hooks mgr0 u0 h1 h2 st h
  rw [h]

/-- Witness for C7: the empty history and the one-call history whose call
was rejected for a state-shape mismatch leave the two-channel manager in
the same state, so the next tick agrees between them. -/
theorem run_deterministic_reentrant_witness :
    run canCompileProcsProc (defaultHooks Unit)
        (runSeqState canCompileProcsProc (defaultHooks Unit) emptyTwoChanMgr
          () []).1
        (runSeqState canCompileProcsProc (defaultHooks Unit) emptyTwoChanMgr
          () []).2 [.tuple []] =
      run canCompileProcsProc (defaultHooks Unit)
        (runSeqState canCompileProcsProc (defaultHooks Unit) emptyTwoChanMgr
          () [[.bits 1 0]]).1
        (runSeqState canCompileProcsProc (defaultHooks Unit) emptyTwoChanMgr
          () [[.bits 1 0]]).2 [.tuple []] :=
  run_deterministic_reentrant Unit canCompileProcsProc (defaultHooks Unit)
    emptyTwoChanMgr () [] [[.bits 1 0]] [.tuple []] rfl

/-- C8: `Recv` on an empty streaming queue and `Recv` on a never-seeded
single-value queue each return a failure result, and `Recv` fails whenever
the supplied buffer length mismatches the channel's payload width. -/
theorem recv_precondition_failures :
    (∀ ch : Channel,
       queueRecv ch (.streaming []) ch.width = .error .queueEmpty) ∧
    (∀ ch : Channel,
       queueRecv ch (.singleValue none) ch.width = .error .queueEmpty) ∧
    (∀ (ch : Channel) (q : QueueState) (len : Nat),
       len ≠ ch.width → queueRecv ch q len = .error .lengthMismatch) := by
  refine ⟨?_, ?_, ?_⟩
  · intro ch
    simp [queueRecv]
  · intro ch
    simp [queueRecv]
  · intro ch q len h
    simp [queueRecv, h]

/-- Witness for C8: receiving 8 bits from the 32-bit channel `c_i` is a
length mismatch. -/
theorem recv_precondition_failures_witness :
    (8 : Nat) ≠ c_i.width ∧
    queueRecv c_i (.streaming [5]) 8 = .error .lengthMismatch :=
  ⟨by decide, recv_precondition_failures.2.2 c_i (.streaming [5]) 8 (by decide)⟩

/-- C9: `Run` with a state whose arity or element types mismatch the proc's
declared state signature fails with a type-mismatch error and returns the
queue manager and context exactly as they were — no queue is touched. -/
theorem run_shape_validation_no_touch :
    ∀ (U : Type) (p : Proc) (hooks : HostHooks U) (mgr : QueueManager) (u : U)
      (state : List XValue),
      XType.beqList (typesOf state) p.stateSig = false →
      run p hooks mgr u state = (.error .typeMismatch, mgr, u) := by
  intro U p hooks mgr u state h
  simp [run, h]

/-- Witness for C9: running the `bits[1]`-state proc with a `()`-typed state
value fails with a type mismatch and leaves the fresh manager unchanged. -/
theorem run_shape_validation_no_touch_witness :
    XType.beqList (typesOf [.tuple []]) recvIfProc.stateSig = false ∧
    run recvIfProc (defaultHooks Unit) emptyTwoChanMgr () [.tuple []] =
      (.error .typeMismatch, emptyTwoChanMgr, ()) :=
  ⟨rfl, run_shape_validation_no_touch Unit recvIfProc (defaultHooks Unit)
    emptyTwoChanMgr () [.tuple []] rfl⟩

/-- C10: suppression of a false-predicated send is local to that send site —
the unconditional receive of the same tick still consumes the head of the
input queue, so over an input queue holding `[a, b]` the false-predicate
tick leaves `[b]` queued (output untouched) and the next, true-predicate
tick receives and forwards `b`, not `a`. -/
theorem send_suppression_local_frame :
    ∀ a b : Nat,
      run conditionalSendProc (defaultHooks Unit)
          ⟨[(c_i, .streaming [a, b]), (c_o, .streaming [])]⟩ () [.bits 1 0] =
        (.ok [.bits 1 0],
         ⟨[(c_i, .streaming [b]), (c_o, .streaming [])]⟩, ()) ∧
      run conditionalSendProc (defaultHooks Unit)
          ⟨[(c_i, .streaming [b]), (c_o, .streaming [])]⟩ () [.bits 1 1] =
        (.ok [.bits 1 1],
         ⟨[(c_i, .streaming []), (c_o, .streaming [b % 2 ^ 32])]⟩, ()) :=
  fun _ _ => ⟨rfl, rfl⟩

end XlsProcJit
